import Mathlib

/-!
Verification of the RG34XX Keymon daemon (src/src/keymon/keymon.c, the fuller
variant; the single-file variant src/src/keymon.c is a strict subset).

The C program is shallowly embedded: each global of the daemon becomes a field
of `KeymonState`; each function becomes a Lean function from its inputs and the
state to the new state plus a list of observable effects (backend invocations,
sleeps, file writes).  Machine `int` values are modelled as `Int` with explicit
clamping; C integer division on non-negative operands is `Nat` division, and
`Int.tdiv` is used where a C division may see a negative numerator.  External
observations (the current monotonic time, the dominant process name, the live
mixer volume, the outcome of each `open`/`ioctl` attempt) are passed in as
explicit inputs; file I/O success is modelled by the corresponding effect and,
for writes that also update a global, an explicit success flag.
-/

namespace Keymon

/-! ## Constants from keymon.c -/

def MAX_STEPS : Nat := 16
def MAX_VOLUME : Nat := 31
def MIN_BRIGHTNESS_INTERVAL_NS : Int := 150000000
def MIN_MENU_DEBOUNCE_NS : Int := 50000000
def MIN_VOLUME_CHANGE_INTERVAL_NS : Int := 300000000
def IOCTL_RETRY_DELAY_US : Nat := 10000
def MAX_IOCTL_RETRIES : Nat := 3
def PROCESS_CHECK_INTERVAL : Int := 2

/-! ## Global state

One record mirroring the C globals (plus the two persistence files, which the
monitor reads back each tick).  `last_proc_file` models the contents of
`/.config/.keymon_lastproc` (`none` = file absent/unreadable, which the C
loader leaves as the empty string). -/

structure KeymonState where
  brightness_level : Nat
  menu_long_pressed : Bool
  last_brightness_change : Int
  last_menu_event : Int
  last_volume_change : Int
  last_process_check : Int
  persistent_volume_step : Nat
  skip_next_restore : Bool
  last_proc_file : Option String
deriving DecidableEq, Repr

/-- Initial values of the C globals. -/
def initState : KeymonState where
  brightness_level := 3
  menu_long_pressed := false
  last_brightness_change := 0
  last_menu_event := 0
  last_volume_change := 0
  last_process_check := 0
  persistent_volume_step := 3
  skip_next_restore := false
  last_proc_file := none

/-! ## Volume step conversion -/

/-- Clamping done at the head of `stepToVolume` / `setVolumeStep`:
`if (step < 0) step = 0; if (step > MAX_STEPS) step = MAX_STEPS;`. -/
def clampStep (s : Int) : Nat :=
  if s < 0 then 0 else if s > (MAX_STEPS : Int) then MAX_STEPS else s.toNat

/-- `stepToVolume` from keymon.c: clamp, then `(step * MAX_VOLUME) / MAX_STEPS`
with C integer division (operands non-negative, so `Nat` division). -/
def stepToVolume (step : Int) : Nat :=
  (clampStep step * MAX_VOLUME) / MAX_STEPS

/-- Modelled from the spec: `round(step * MAX_NATIVE / MAX_STEP)`, rounding the
quotient `num / den` to the nearest integer.  This is the spec-side formula the
code's `stepToVolume` is compared against; it is not part of the source. -/
def specRoundNearest (num den : Nat) : Nat :=
  (num + den / 2) / den

/-- The step computation of `getVolumeStep` from keymon.c, applied to the
integer parsed from the mixer query:
`step = (value * MAX_STEPS + MAX_VOLUME/2) / MAX_VOLUME` (C division truncates
toward zero, hence `Int.tdiv`), then clamped to `[0, MAX_STEPS]`. -/
def getVolumeStepFromValue (value : Int) : Nat :=
  let step := Int.tdiv (value * (MAX_STEPS : Int) + (MAX_VOLUME : Int) / 2) (MAX_VOLUME : Int)
  if step < 0 then 0 else if step > (MAX_STEPS : Int) then MAX_STEPS else step.toNat

lemma clampStep_coe (S : Nat) (hS : S ≤ MAX_STEPS) : clampStep (S : Int) = S := by
  simp only [clampStep, MAX_STEPS] at *
  split_ifs <;> omega

/-! ## Volume actuator (`setVolumeStep`) -/

/-- Observable effects of `setVolumeStep`, in program order: the
`tinymix set 2 <vol>` shell-out, the attempt to write the persistence file,
and the 100ms settling `usleep`. -/
inductive VolEffect where
  | mixerSet (v : Nat)
  | persistStep (s : Nat)
  | settle
deriving DecidableEq, Repr

/-- `setVolumeStep` from keymon.c.  `fileOk` tells whether the persistence
file could be opened for writing: `save_volume_to_file` updates the
`persistent_volume_step` global only in that case. -/
def setVolumeStep (now : Int) (step : Int) (fileOk : Bool) (st : KeymonState) :
    KeymonState × List VolEffect :=
  if now - st.last_volume_change < MIN_VOLUME_CHANGE_INTERVAL_NS then
    (st, [])
  else
    ({ st with
        last_volume_change := now
        skip_next_restore := true
        persistent_volume_step := if fileOk then clampStep step else st.persistent_volume_step },
     [.mixerSet (stepToVolume step), .persistStep (clampStep step), .settle])

/-! ## Modifier debouncer (`handle_menu_event`) -/

/-- `handle_menu_event` from keymon.c: transitions arriving within 50ms of the
last accepted transition are ignored and the previous state is returned. -/
def handle_menu_event (now : Int) (pressed : Bool) (st : KeymonState) :
    Bool × KeymonState :=
  if now - st.last_menu_event < MIN_MENU_DEBOUNCE_NS then
    (st.menu_long_pressed, st)
  else
    (pressed, { st with menu_long_pressed := pressed, last_menu_event := now })

/-! ## Claim C4: native value computed by the Volume Actuator -/

/-- Claim C4, counterexample: the claim says the native value applied for step
S equals `round(S * MAX_VOLUME / MAX_STEPS)`.  At S = 1 the code computes
`(1*31)/16 = 1` (truncation) while round-to-nearest gives 2, and the mixer
set-call of `setVolumeStep` indeed carries 1, not 2. -/
theorem stepToVolume_truncates_not_rounds :
    stepToVolume 1 = 1 ∧
    specRoundNearest (1 * MAX_VOLUME) MAX_STEPS = 2 ∧
    stepToVolume 1 ≠ specRoundNearest (1 * MAX_VOLUME) MAX_STEPS ∧
    (setVolumeStep 400000000 1 true initState).2 =
      [VolEffect.mixerSet 1, VolEffect.persistStep 1, VolEffect.settle] := by
  decide

/-- Claim C4, amended: for every step S in [0, MAX_STEPS], the native value
computed and applied by the Volume Actuator equals
`(S * MAX_VOLUME) / MAX_STEPS` with truncating (floor) integer division, not
round-to-nearest. -/
theorem volume_native_value_floor (now : Int) (S : Nat) (fileOk : Bool)
    (st : KeymonState) (hS : S ≤ MAX_STEPS)
    (hgate : ¬ (now - st.last_volume_change < MIN_VOLUME_CHANGE_INTERVAL_NS)) :
    stepToVolume (S : Int) = S * MAX_VOLUME / MAX_STEPS ∧
    (setVolumeStep now (S : Int) fileOk st).2 =
      [VolEffect.mixerSet (S * MAX_VOLUME / MAX_STEPS), VolEffect.persistStep S,
       VolEffect.settle] := by
  have hc := clampStep_coe S hS
  constructor
  · simp [stepToVolume, hc]
  · simp [setVolumeStep, if_neg hgate, stepToVolume, hc]

/-- Claim C4, witness for the amended theorem at S = 2 (native value 3). -/
theorem volume_native_value_floor_witness :
    stepToVolume ((2 : Nat) : Int) = 2 * MAX_VOLUME / MAX_STEPS ∧
    (setVolumeStep 400000000 ((2 : Nat) : Int) true initState).2 =
      [VolEffect.mixerSet (2 * MAX_VOLUME / MAX_STEPS), VolEffect.persistStep 2,
       VolEffect.settle] :=
  volume_native_value_floor 400000000 2 true initState (by decide) (by decide)

/-! ## Claim C5: monotonicity and round trip -/

/-- Claim C5: over all steps in [0, MAX_STEPS] (i.e. `Fin 17`, 17 = MAX_STEPS+1),
the step-to-native conversion is monotonically non-decreasing, and the round
trip step → native → step through `getVolumeStep`'s nearest-step inverse
formula returns the original step at every exact sample point. -/
theorem stepToVolume_monotone_roundtrip :
    (∀ s t : Fin 17, (s : Nat) ≤ (t : Nat) →
      stepToVolume ((s : Nat) : Int) ≤ stepToVolume ((t : Nat) : Int)) ∧
    (∀ s : Fin 17,
      getVolumeStepFromValue ((stepToVolume ((s : Nat) : Int) : Nat) : Int) = (s : Nat)) := by
  decide

/-- Claim C5, witness: monotonicity at 2 ≤ 5 and round trip at step 8. -/
theorem stepToVolume_monotone_roundtrip_witness :
    stepToVolume (((2 : Fin 17) : Nat) : Int) ≤ stepToVolume (((5 : Fin 17) : Nat) : Int) ∧
    getVolumeStepFromValue ((stepToVolume (((8 : Fin 17) : Nat) : Int) : Nat) : Int) =
      ((8 : Fin 17) : Nat) :=
  ⟨stepToVolume_monotone_roundtrip.1 2 5 (by decide),
   stepToVolume_monotone_roundtrip.2 8⟩

/-! ## Claim C7: modifier debouncing -/

/-- Claim C7, counterexample: starting from the released state, an accepted
press at t=2s is followed 40ms later by a release.  The second call is
debounced and returns `true` — the state accepted at the *first* call of the
pair — whereas the claim says it returns the state from *before* the first of
the pair (`false`, which also happens to be the requested new state). -/
theorem menu_debounce_pair_counterexample :
    initState.menu_long_pressed = false ∧
    (handle_menu_event 2000000000 true initState).1 = true ∧
    (handle_menu_event 2040000000 false (handle_menu_event 2000000000 true initState).2).1
      = true ∧
    (handle_menu_event 2040000000 false (handle_menu_event 2000000000 true initState).2).1
      ≠ initState.menu_long_pressed := by
  decide

/-- Claim C7, amended: a transition arriving less than 50ms after the last
accepted transition is ignored — state and debounce timestamp unchanged, the
previous state returned; and for two transitions less than 50ms apart whose
first is accepted, the second call returns the state accepted at the first of
the pair (the last accepted state), not the newly requested state. -/
theorem menu_debounce_behavior (st : KeymonState) (t1 t2 : Int) (p1 p2 : Bool) :
    (t1 - st.last_menu_event < MIN_MENU_DEBOUNCE_NS →
      handle_menu_event t1 p1 st = (st.menu_long_pressed, st)) ∧
    (¬ (t1 - st.last_menu_event < MIN_MENU_DEBOUNCE_NS) →
      t2 - t1 < MIN_MENU_DEBOUNCE_NS →
      (handle_menu_event t1 p1 st).1 = p1 ∧
      handle_menu_event t2 p2 (handle_menu_event t1 p1 st).2 =
        (p1, (handle_menu_event t1 p1 st).2)) := by
  constructor
  · intro h
    simp [handle_menu_event, if_pos h]
  · intro h1 h2
    simp only [handle_menu_event, if_neg h1]
    simp [h2]

/-- Claim C7, witness for the amended theorem: accepted press at t=1s,
debounced release 30ms later returns the pressed state. -/
theorem menu_debounce_behavior_witness :
    (handle_menu_event 1000000000 true initState).1 = true ∧
    handle_menu_event 1030000000 false (handle_menu_event 1000000000 true initState).2 =
      (true, (handle_menu_event 1000000000 true initState).2) :=
  (menu_debounce_behavior initState 1000000000 1030000000 true false).2
    (by decide) (by decide)

/-! ## Brightness actuator (`set_brightness_ioctl`) -/

/-- Error classes of a failed `ioctl`, as tested by keymon.c:
`errno == EPERM || errno == EBUSY || errno == EAGAIN` is transient. -/
inductive CErr where
  | eperm | ebusy | eagain | other
deriving DecidableEq, Repr

def CErr.transient : CErr → Bool
  | .eperm => true
  | .ebusy => true
  | .eagain => true
  | .other => false

/-- Outcome of one attempt of the retry loop: `open("/dev/disp")` failed, or
the `ioctl` succeeded, or the `ioctl` failed with the given `errno` class. -/
inductive AttemptOutcome where
  | openFail
  | ioctlOk
  | ioctlErr (e : CErr)
deriving DecidableEq, Repr

/-- Build the attempt oracle from the outcomes of the first attempts (further
attempts, never reached from attempt 0, default to success). -/
def backendOf (l : List AttemptOutcome) : Nat → AttemptOutcome :=
  fun k => l.getD k .ioctlOk

/-- Trace of the retry loop: C return value, number of `open` calls, number of
`ioctl` calls, and the `usleep` durations (µs) in order. -/
structure AttemptTrace where
  ret : Int
  opens : Nat
  ioctls : Nat
  delays : List Nat
deriving DecidableEq, Repr

/-- The `for (retry = 0; retry < MAX_IOCTL_RETRIES; retry++)` loop of
`set_brightness_ioctl`.  `fuel` is the number of loop iterations left
(`MAX_IOCTL_RETRIES - retry`); running out of fuel is the normal loop exit,
which returns -1.  Note: a failed `open` sleeps the fixed
`IOCTL_RETRY_DELAY_US`, while a transient `ioctl` failure sleeps
`IOCTL_RETRY_DELAY_US * (retry + 1)`. -/
def ioctlRetryLoopAux (backend : Nat → AttemptOutcome) : Nat → Nat → AttemptTrace
  | _, 0 => { ret := -1, opens := 0, ioctls := 0, delays := [] }
  | retry, fuel + 1 =>
    match backend retry with
    | .openFail =>
      if retry < MAX_IOCTL_RETRIES - 1 then
        let t := ioctlRetryLoopAux backend (retry + 1) fuel
        { t with opens := t.opens + 1, delays := IOCTL_RETRY_DELAY_US :: t.delays }
      else
        { ret := -1, opens := 1, ioctls := 0, delays := [] }
    | .ioctlOk => { ret := 0, opens := 1, ioctls := 1, delays := [] }
    | .ioctlErr e =>
      if e.transient then
        if retry < MAX_IOCTL_RETRIES - 1 then
          let t := ioctlRetryLoopAux backend (retry + 1) fuel
          { t with opens := t.opens + 1, ioctls := t.ioctls + 1,
                   delays := IOCTL_RETRY_DELAY_US * (retry + 1) :: t.delays }
        else
          { ret := -1, opens := 1, ioctls := 1, delays := [] }
      else
        { ret := -1, opens := 1, ioctls := 1, delays := [] }

def ioctlRetryLoop (backend : Nat → AttemptOutcome) : AttemptTrace :=
  ioctlRetryLoopAux backend 0 MAX_IOCTL_RETRIES

/-- Clamping at the head of `set_brightness_ioctl`:
`if (level < 0) level = 0; if (level > 7) level = 7;`. -/
def clampLevel (l : Int) : Nat :=
  if l < 0 then 0 else if l > 7 then 7 else l.toNat

/-- Result of `set_brightness_ioctl`: the new global state, the C return
value, and the backend trace. -/
structure SetBrightOut where
  st : KeymonState
  ret : Int
  opens : Nat
  ioctls : Nat
  delays : List Nat
deriving DecidableEq, Repr

/-- `set_brightness_ioctl` from keymon.c: clamp the level; if less than 150ms
elapsed since the last gate-passing call, return 0 touching nothing;
otherwise record level and timestamp optimistically and run the retry loop. -/
def set_brightness_ioctl (backend : Nat → AttemptOutcome) (now : Int) (level : Int)
    (st : KeymonState) : SetBrightOut :=
  if now - st.last_brightness_change < MIN_BRIGHTNESS_INTERVAL_NS then
    { st := st, ret := 0, opens := 0, ioctls := 0, delays := [] }
  else
    let t := ioctlRetryLoop backend
    { st := { st with brightness_level := clampLevel level, last_brightness_change := now },
      ret := t.ret, opens := t.opens, ioctls := t.ioctls, delays := t.delays }

/-! ## Claim C6: brightness rate gate -/

/-- Claim C6: a brightness apply made less than 150ms after the previous
gate-passing apply (successful or merely attempted application) is a silent
no-op returning 0: state (level and timestamp) untouched, device never opened
or invoked, no delays. -/
theorem brightness_rate_gate_noop (backend : Nat → AttemptOutcome) (now level : Int)
    (st : KeymonState)
    (h : now - st.last_brightness_change < MIN_BRIGHTNESS_INTERVAL_NS) :
    set_brightness_ioctl backend now level st =
      { st := st, ret := 0, opens := 0, ioctls := 0, delays := [] } := by
  simp [set_brightness_ioctl, if_pos h]

/-- Claim C6, witness: a second apply 100ms after an accepted one is a no-op. -/
theorem brightness_rate_gate_noop_witness :
    set_brightness_ioctl (backendOf []) 100000000 5 initState =
      { st := initState, ret := 0, opens := 0, ioctls := 0, delays := [] } :=
  brightness_rate_gate_noop (backendOf []) 100000000 5 initState (by decide)

/-! ## Claim C3: retry/backoff policy -/

/-- Claim C3, counterexample: the claim says a failure to open the device
retries "after an increasing backoff delay of 10ms times the retry count".
With the first two attempts failing at `open` and the third succeeding, the
code sleeps a fixed 10000µs both times — the second delay is 10000µs, not the
claimed 20000µs, and the delay sequence is not increasing. -/
theorem open_retry_delay_not_scaled :
    (set_brightness_ioctl (backendOf [.openFail, .openFail, .ioctlOk])
        200000000 5 initState).delays = [10000, 10000] ∧
    [10000, 10000] ≠ [IOCTL_RETRY_DELAY_US * 1, IOCTL_RETRY_DELAY_US * 2] := by
  decide

/-- Claim C3, amended: for a gate-passing brightness apply, (i) the in-memory
level is the clamped requested value in every outcome (no rollback); (ii) a
transient control-call failure retries after an increasing delay of 10ms times
the retry count, so failing transiently twice then succeeding reports success
with exactly three control calls and increasing delays 10ms, 20ms; (iii) a
non-transient control-call error aborts retrying immediately; (iv) exhausting
the 3 attempts on transient errors reports failure (-1); (v) a failure to open
retries after a fixed 10ms delay (not scaled by the retry count). -/
theorem set_brightness_retry_policy (now level : Int) (st : KeymonState)
    (hgate : ¬ (now - st.last_brightness_change < MIN_BRIGHTNESS_INTERVAL_NS)) :
    (∀ backend, (set_brightness_ioctl backend now level st).st.brightness_level =
      clampLevel level) ∧
    (∀ e0 e1 : CErr, e0.transient = true → e1.transient = true →
      (set_brightness_ioctl (backendOf [.ioctlErr e0, .ioctlErr e1, .ioctlOk])
          now level st).ret = 0 ∧
      (set_brightness_ioctl (backendOf [.ioctlErr e0, .ioctlErr e1, .ioctlOk])
          now level st).ioctls = 3 ∧
      (set_brightness_ioctl (backendOf [.ioctlErr e0, .ioctlErr e1, .ioctlOk])
          now level st).delays = [10000, 20000]) ∧
    (∀ e0 : CErr, e0.transient = false →
      (set_brightness_ioctl (backendOf [.ioctlErr e0]) now level st).ret = -1 ∧
      (set_brightness_ioctl (backendOf [.ioctlErr e0]) now level st).ioctls = 1 ∧
      (set_brightness_ioctl (backendOf [.ioctlErr e0]) now level st).delays = []) ∧
    (∀ e0 e1 e2 : CErr, e0.transient = true → e1.transient = true →
      e2.transient = true →
      (set_brightness_ioctl (backendOf [.ioctlErr e0, .ioctlErr e1, .ioctlErr e2])
          now level st).ret = -1 ∧
      (set_brightness_ioctl (backendOf [.ioctlErr e0, .ioctlErr e1, .ioctlErr e2])
          now level st).ioctls = 3) ∧
    (∀ o2 : AttemptOutcome,
      (set_brightness_ioctl (backendOf [.openFail, .openFail, o2])
          now level st).delays = [10000, 10000]) := by
  have hred : ∀ backend : Nat → AttemptOutcome,
      set_brightness_ioctl backend now level st =
        { st := { st with brightness_level := clampLevel level,
                          last_brightness_change := now },
          ret := (ioctlRetryLoop backend).ret,
          opens := (ioctlRetryLoop backend).opens,
          ioctls := (ioctlRetryLoop backend).ioctls,
          delays := (ioctlRetryLoop backend).delays } := by
    intro backend
    simp [set_brightness_ioctl, if_neg hgate]
  refine ⟨?_, ?_, ?_, ?_, ?_⟩
  · intro backend
    rw [hred backend]
  · intro e0 e1
    simp only [hred]
    cases e0 <;> cases e1 <;> decide
  · intro e0
    simp only [hred]
    cases e0 <;> decide
  · intro e0 e1 e2
    simp only [hred]
    cases e0 <;> cases e1 <;> cases e2 <;> decide
  · intro o2
    simp only [hred]
    cases o2 with
    | openFail => decide
    | ioctlOk => decide
    | ioctlErr e => cases e <;> decide

/-- Claim C3, witness: transiently failing (EBUSY) twice then succeeding at
t = 200ms from the initial state reports success after three control calls
with delays 10ms then 20ms, and the level sticks at the clamped request. -/
theorem set_brightness_retry_policy_witness :
    (set_brightness_ioctl (backendOf [.ioctlErr .ebusy, .ioctlErr .ebusy, .ioctlOk])
        200000000 5 initState).st.brightness_level = clampLevel 5 ∧
    (set_brightness_ioctl (backendOf [.ioctlErr .ebusy, .ioctlErr .ebusy, .ioctlOk])
        200000000 5 initState).ret = 0 ∧
    (set_brightness_ioctl (backendOf [.ioctlErr .ebusy, .ioctlErr .ebusy, .ioctlOk])
        200000000 5 initState).ioctls = 3 ∧
    (set_brightness_ioctl (backendOf [.ioctlErr .ebusy, .ioctlErr .ebusy, .ioctlOk])
        200000000 5 initState).delays = [10000, 20000] := by
  have h := set_brightness_retry_policy 200000000 5 initState (by decide)
  exact ⟨h.1 (backendOf [.ioctlErr .ebusy, .ioctlErr .ebusy, .ioctlOk]),
    (h.2.1 .ebusy .ebusy rfl rfl).1, (h.2.1 .ebusy .ebusy rfl rfl).2.1,
    (h.2.1 .ebusy .ebusy rfl rfl).2.2⟩

/-! ## Brightness reader (`get_brightness_ioctl` level matching) -/

/-- The brightness table `brightness_values[8]`. -/
def brightness_values : List Int := [5, 10, 20, 50, 70, 140, 200, 255]

def brightnessValue (i : Nat) : Int := brightness_values.getD i 0

/-- First loop of the level matching in `get_brightness_ioctl`: the first
index whose table entry equals the raw value read back from the device. -/
def exactLevel (raw : Int) : Option Nat :=
  (List.range 8).find? (fun i => brightnessValue i == raw)

/-- Second loop: the index of the entry closest to the raw value by absolute
difference, lowest index winning ties (strict `<` keeps the earlier index). -/
def closestScan (raw : Int) : Nat :=
  (List.range 8).foldl
    (fun best i =>
      if (brightnessValue i - raw).natAbs < (brightnessValue best - raw).natAbs then i
      else best)
    0

/-- Level reported by `get_brightness_ioctl` for a raw value: exact match if
any, else the closest entry. -/
def levelFromRaw (raw : Int) : Nat :=
  match exactLevel raw with
  | some i => i
  | none => closestScan raw

lemma closestScan_aux (raw : Int) (l : List Nat) (b : Nat) (hb : b < 8)
    (hl : ∀ i ∈ l, i < 8) :
    l.foldl
      (fun best i =>
        if (brightnessValue i - raw).natAbs < (brightnessValue best - raw).natAbs then i
        else best)
      b < 8 := by
  induction l generalizing b with
  | nil => simpa using hb
  | cons x xs ih =>
    simp only [List.foldl_cons]
    apply ih
    · split
      · exact hl x (by simp)
      · exact hb
    · intro i hi
      exact hl i (by simp [hi])

lemma closestScan_lt (raw : Int) : closestScan raw < 8 := by
  apply closestScan_aux raw (List.range 8) 0 (by decide)
  intro i hi
  exact List.mem_range.mp hi

lemma levelFromRaw_lt (raw : Int) : levelFromRaw raw < 8 := by
  unfold levelFromRaw
  cases hfind : exactLevel raw with
  | none => exact closestScan_lt raw
  | some i =>
    have hmem := List.mem_of_find?_eq_some hfind
    exact List.mem_range.mp hmem

/-! ## Claim C8: the brightness level invariant -/

/-- One state-changing brightness operation: an Actuator apply (with its
attempt oracle, call time and requested level), or the startup Reader probe
(`sync_brightness_level`), whose input is the raw value the device reported,
`none` when the probe failed and left the level untouched. -/
inductive BrightEvent where
  | applyEv (backend : Nat → AttemptOutcome) (now : Int) (level : Int)
  | probeEv (raw : Option Int)

def brightStep (st : KeymonState) : BrightEvent → KeymonState
  | .applyEv backend now level => (set_brightness_ioctl backend now level st).st
  | .probeEv none => st
  | .probeEv (some raw) => { st with brightness_level := levelFromRaw raw }

def runBright (evs : List BrightEvent) : KeymonState :=
  evs.foldl brightStep initState

lemma clampLevel_le (L : Int) : clampLevel L ≤ 7 := by
  simp only [clampLevel]
  split_ifs <;> omega

lemma brightStep_preserves (st : KeymonState) (ev : BrightEvent)
    (h : st.brightness_level ≤ 7) : (brightStep st ev).brightness_level ≤ 7 := by
  cases ev with
  | applyEv backend now level =>
    simp only [brightStep, set_brightness_ioctl]
    split
    · exact h
    · exact clampLevel_le level
  | probeEv raw =>
    cases raw with
    | none => exact h
    | some r =>
      simp only [brightStep]
      exact Nat.lt_succ_iff.mp (levelFromRaw_lt r)

lemma runBright_aux (evs : List BrightEvent) (st : KeymonState)
    (h : st.brightness_level ≤ 7) :
    (evs.foldl brightStep st).brightness_level ≤ 7 := by
  induction evs generalizing st with
  | nil => simpa using h
  | cons ev evs ih =>
    simp only [List.foldl_cons]
    exact ih _ (brightStep_preserves st ev h)

/-- Claim C8: every requested level is clamped into [0,7]; the exact-match or
closest-match level the Reader's probe produces is in [0,7]; and under any
sequence of Actuator applies and Reader probes the stored brightness level
never leaves [0,7] (it is a `Nat`, so only the upper bound is non-trivial). -/
theorem brightness_level_invariant :
    (∀ L : Int, clampLevel L ≤ 7) ∧
    (∀ raw : Int, levelFromRaw raw ≤ 7) ∧
    (∀ evs : List BrightEvent, (runBright evs).brightness_level ≤ 7) := by
  refine ⟨clampLevel_le, ?_, ?_⟩
  · intro raw
    exact Nat.lt_succ_iff.mp (levelFromRaw_lt raw)
  · intro evs
    exact runBright_aux evs initState (by decide)

/-! ## Process-Change Monitor (`check_and_restore_on_new_process`) -/

/-- External observations of one monitor tick: the wall time (`time(NULL)`,
seconds), the dominant process found by `get_newest_process` (`none` when no
non-ignored process exists or /proc is unreadable), and the live volume step
from `getVolumeStep` (`none` for its -1 unreadable result, already converted
to a step otherwise). -/
structure MonEnv where
  now : Int
  newest : Option String
  liveVol : Option Nat
deriving DecidableEq, Repr

/-- Observable effects of a monitor tick, in program order: the /proc scan,
the live-volume query, the direct `tinymix set 2 <vol>` shell-out of the
restoration path, and the write of the last-process file. -/
inductive MonEffect where
  | enumProcs
  | readVolume
  | mixerSet (v : Nat)
  | saveProc (name : String)
deriving DecidableEq, Repr

/-- `check_and_restore_on_new_process` from keymon.c.  The rate gate advances
`last_process_check` before the skip-restore flag is examined; the restoration
shell-out is issued directly, without consulting `last_volume_change`. -/
def check_and_restore_on_new_process (env : MonEnv) (st : KeymonState) :
    KeymonState × List MonEffect :=
  if env.now - st.last_process_check < PROCESS_CHECK_INTERVAL then
    (st, [])
  else
    let st1 := { st with last_process_check := env.now }
    if st1.skip_next_restore then
      ({ st1 with skip_next_restore := false }, [])
    else
      match env.newest with
      | none => (st1, [.enumProcs])
      | some current =>
        if current = st1.last_proc_file.getD "" then
          (st1, [.enumProcs])
        else
          match env.liveVol with
          | none =>
            ({ st1 with last_proc_file := some current },
             [.enumProcs, .readVolume, .saveProc current])
          | some sysVol =>
            if 1 < ((sysVol : Int) - (st1.persistent_volume_step : Int)).natAbs then
              ({ st1 with last_proc_file := some current },
               [.enumProcs, .readVolume,
                .mixerSet (stepToVolume (st1.persistent_volume_step : Int)),
                .saveProc current])
            else
              ({ st1 with last_proc_file := some current },
               [.enumProcs, .readVolume, .saveProc current])

/-! ## Claim C1: restoration on a new dominant process -/

/-- Claim C1: on a gate-passing tick with the skip flag clear and a dominant
process found: if its name differs from the remembered one, the name is
remembered in every case (volume readable or not), and when the live step is
readable and differs from the persisted step by more than 1 the backend
receives the direct set-call for the persisted step's native value; if the
names are equal, the tick performs no volume read, no backend call and no
name update. -/
theorem monitor_restores_on_new_process (env : MonEnv) (st : KeymonState)
    (cur : String)
    (hgate : ¬ (env.now - st.last_process_check < PROCESS_CHECK_INTERVAL))
    (hskip : st.skip_next_restore = false)
    (hnew : env.newest = some cur) :
    (cur ≠ st.last_proc_file.getD "" →
      (check_and_restore_on_new_process env st).1.last_proc_file = some cur ∧
      MonEffect.saveProc cur ∈ (check_and_restore_on_new_process env st).2 ∧
      (∀ sysVol : Nat, env.liveVol = some sysVol →
        1 < ((sysVol : Int) - (st.persistent_volume_step : Int)).natAbs →
        MonEffect.mixerSet (stepToVolume (st.persistent_volume_step : Int)) ∈
          (check_and_restore_on_new_process env st).2)) ∧
    (cur = st.last_proc_file.getD "" →
      check_and_restore_on_new_process env st =
        ({ st with last_process_check := env.now }, [MonEffect.enumProcs])) := by
  simp only [check_and_restore_on_new_process, if_neg hgate, hnew, hskip,
    Bool.false_eq_true, if_false]
  constructor
  · intro hne
    rw [if_neg hne]
    cases hv : env.liveVol with
    | none =>
      refine ⟨rfl, by simp, ?_⟩
      intro s hs
      simp at hs
    | some sysVol =>
      by_cases hdiff : 1 < ((sysVol : Int) - (st.persistent_volume_step : Int)).natAbs
      · refine ⟨by simp [hdiff], by simp [hdiff], ?_⟩
        intro s hs h2
        injection hs with hs
        subst hs
        simp [hdiff]
      · refine ⟨by simp [hdiff], by simp [hdiff], ?_⟩
        intro s hs h2
        injection hs with hs
        subst hs
        exact absurd h2 hdiff
  · intro heq
    rw [if_pos heq]

/-- Claim C1, witness: previous process "shell", dominant process "game", live
step 2 against persisted step 8 (difference 6 > 1): the backend receives the
native value of step 8 and "game" is remembered; with the names equal instead,
a spec-side check via the same theorem shows the tick is silent. -/
theorem monitor_restores_on_new_process_witness :
    (check_and_restore_on_new_process
        { now := 2, newest := some "game", liveVol := some 2 }
        { initState with persistent_volume_step := 8,
                         last_proc_file := some "shell" }).1.last_proc_file =
      some "game" ∧
    MonEffect.mixerSet
        (stepToVolume (((8 : Nat) : Int))) ∈
      (check_and_restore_on_new_process
        { now := 2, newest := some "game", liveVol := some 2 }
        { initState with persistent_volume_step := 8,
                         last_proc_file := some "shell" }).2 := by
  have h := monitor_restores_on_new_process
    { now := 2, newest := some "game", liveVol := some 2 }
    { initState with persistent_volume_step := 8, last_proc_file := some "shell" }
    "game" (by decide) rfl rfl
  have h2 := h.1 (by decide)
  exact ⟨h2.1, h2.2.2 2 rfl (by decide)⟩

/-! ## Claim C2: skip-restore flag consumption -/

/-- Shared reduction of the skip-flag branch of the monitor, used by the C2
and C10 theorems. -/
lemma monitor_skip_reduce (env : MonEnv) (st : KeymonState)
    (hgate : ¬ (env.now - st.last_process_check < PROCESS_CHECK_INTERVAL))
    (hskip : st.skip_next_restore = true) :
    check_and_restore_on_new_process env st =
      ({ st with last_process_check := env.now, skip_next_restore := false }, []) := by
  simp [check_and_restore_on_new_process, if_neg hgate, hskip]

/-- Claim C2: a gate-passing tick with the skip flag set only clears the flag
and advances the gate timestamp — no process enumeration, no volume read, no
backend call, no change to the remembered process name or the persisted step,
whatever the process table holds. -/
theorem monitor_skip_flag_consumed (env : MonEnv) (st : KeymonState)
    (hgate : ¬ (env.now - st.last_process_check < PROCESS_CHECK_INTERVAL))
    (hskip : st.skip_next_restore = true) :
    check_and_restore_on_new_process env st =
      ({ st with last_process_check := env.now, skip_next_restore := false }, []) :=
  monitor_skip_reduce env st hgate hskip

/-- Claim C2, witness: with the flag set and a fresh process "game" visible,
the tick only clears the flag. -/
theorem monitor_skip_flag_consumed_witness :
    check_and_restore_on_new_process
        { now := 5, newest := some "game", liveVol := some 0 }
        { initState with skip_next_restore := true, last_proc_file := some "shell" } =
      ({ initState with skip_next_restore := false, last_process_check := 5,
                        last_proc_file := some "shell" }, []) := by
  have h := monitor_skip_flag_consumed
    { now := 5, newest := some "game", liveVol := some 0 }
    { initState with skip_next_restore := true, last_proc_file := some "shell" }
    (by decide) rfl
  exact h

/-! ## Claim C10: a flag-consuming tick uses a full polling window -/

/-- Claim C10: a gate-passing tick advances `last_process_check` to its own
time before examining the skip flag, so a tick that merely consumes the flag
still uses up a polling window: every tick less than 2 seconds after the
flag-consuming tick is a no-op, and no comparison or restoration can occur
before 2 seconds have passed — the earliest restoration check after a
daemon-initiated volume change is the second gate-passing tick. -/
theorem monitor_flag_tick_consumes_window (env1 : MonEnv) (st : KeymonState)
    (hgate : ¬ (env1.now - st.last_process_check < PROCESS_CHECK_INTERVAL))
    (hskip : st.skip_next_restore = true) :
    (check_and_restore_on_new_process env1 st).1.last_process_check = env1.now ∧
    (check_and_restore_on_new_process env1 st).1.skip_next_restore = false ∧
    (check_and_restore_on_new_process env1 st).2 = [] ∧
    (∀ env2 : MonEnv, env2.now - env1.now < PROCESS_CHECK_INTERVAL →
      check_and_restore_on_new_process env2
          (check_and_restore_on_new_process env1 st).1 =
        ((check_and_restore_on_new_process env1 st).1, [])) := by
  have h1 := monitor_skip_reduce env1 st hgate hskip
  rw [h1]
  refine ⟨rfl, rfl, rfl, ?_⟩
  intro env2 h2
  simp only [check_and_restore_on_new_process]
  rw [if_pos h2]

/-- Claim C10, witness: the flag set by a volume change is consumed at t=10;
a tick at t=11 with a brand-new process visible does nothing. -/
theorem monitor_flag_tick_consumes_window_witness :
    (check_and_restore_on_new_process { now := 10, newest := none, liveVol := none }
        { initState with skip_next_restore := true }).1.last_process_check = 10 ∧
    check_and_restore_on_new_process { now := 11, newest := some "game", liveVol := some 0 }
        (check_and_restore_on_new_process { now := 10, newest := none, liveVol := none }
          { initState with skip_next_restore := true }).1 =
      ((check_and_restore_on_new_process { now := 10, newest := none, liveVol := none }
          { initState with skip_next_restore := true }).1, []) := by
  have h := monitor_flag_tick_consumes_window
    { now := 10, newest := none, liveVol := none }
    { initState with skip_next_restore := true } (by decide) rfl
  exact ⟨h.1, h.2.2.2 { now := 11, newest := some "game", liveVol := some 0 } (by decide)⟩

/-! ## Claim C9: magnitude-key dispatch at the bounds -/

inductive VolKey where
  | up | down
deriving DecidableEq, Repr

/-- A routed actuation, as issued by the dispatch loop in `main`. -/
inductive DispatchCall where
  | volumeApply (step : Nat)
  | brightnessApply (level : Int)
deriving DecidableEq, Repr

/-- The `KEY_VOLUP` / `KEY_VOLDOWN` press branches of `main`: `step` is the
local step variable; the returned list holds the actuator invocations made. -/
def dispatch_magnitude_key (k : VolKey) (menuHeld : Bool) (brightLevel : Nat)
    (step : Nat) : Nat × List DispatchCall :=
  match k with
  | .up =>
    if menuHeld then (step, [.brightnessApply ((brightLevel : Int) + 1)])
    else if step < MAX_STEPS then (step + 1, [.volumeApply (step + 1)])
    else (step, [])
  | .down =>
    if menuHeld then (step, [.brightnessApply ((brightLevel : Int) - 1)])
    else if 0 < step then (step - 1, [.volumeApply (step - 1)])
    else (step, [])

/-- Claim C9: with the modifier not held, a volume-up press at
step = MAX_STEPS and a volume-down press at step = 0 are dropped — step
unchanged and no actuator call; otherwise the step moves by exactly 1 and the
Volume Actuator is invoked with the new step. -/
theorem magnitude_key_dispatch (brightLevel step : Nat) :
    (step = MAX_STEPS →
      dispatch_magnitude_key .up false brightLevel step = (step, [])) ∧
    (step = 0 →
      dispatch_magnitude_key .down false brightLevel step = (step, [])) ∧
    (step < MAX_STEPS →
      dispatch_magnitude_key .up false brightLevel step =
        (step + 1, [DispatchCall.volumeApply (step + 1)])) ∧
    (0 < step →
      dispatch_magnitude_key .down false brightLevel step =
        (step - 1, [DispatchCall.volumeApply (step - 1)])) := by
  refine ⟨?_, ?_, ?_, ?_⟩
  · intro h
    simp [dispatch_magnitude_key, h, MAX_STEPS]
  · intro h
    simp [dispatch_magnitude_key, h]
  · intro h
    simp [dispatch_magnitude_key, if_pos h]
  · intro h
    simp [dispatch_magnitude_key, if_pos h]

/-- Claim C9, witness: at step 16 an up press is dropped; at step 0 a down
press is dropped; at step 3 an up press invokes the actuator with step 4. -/
theorem magnitude_key_dispatch_witness :
    dispatch_magnitude_key .up false 3 16 = (16, []) ∧
    dispatch_magnitude_key .down false 3 0 = (0, []) ∧
    dispatch_magnitude_key .up false 3 3 = (4, [DispatchCall.volumeApply 4]) :=
  ⟨(magnitude_key_dispatch 3 16).1 rfl,
   (magnitude_key_dispatch 3 0).2.1 rfl,
   (magnitude_key_dispatch 3 3).2.2.1 (by decide)⟩

end Keymon
